import Mathlib

/-!
Verification of the chatsomm-back chat gateway against its specification.

The repository holds two variants of an Express `server.js`:

* Variant A (`src/server.js`): a stateless forwarder.  `POST /api/chat`
  validates the body, builds a message list (system prompt, the supplied
  `conversationHistory` copied verbatim, the new user message) and issues a
  single chat-completion call; a non-2xx upstream response is mapped to
  `res.status(response.status)` with a `details` field.

* Variant B (`src/unnamed/part_000`): a thread/run forwarder.  `POST
  /api/chat` validates the body, checks the assistant id configuration,
  resolves a thread (creates one when the supplied `threadId` is falsy),
  appends the message, starts a run, polls the run status (at most 60
  attempts, 1 second sleep before each fetch), fetches the thread messages,
  extracts the first assistant message, joins its text segments with
  newlines and strips `【...】` citation markers.  Every thrown error is
  caught and mapped to HTTP 500 `{error: 'Internal server error', message}`.

The embedding below models request bodies as JSON-ish values, the upstream
service as an oracle record (one field per upstream call), and each handler
as a pure function from request and oracle to an HTTP-level result together
with a trace of the upstream calls it performed.
-/

/-- JSON-ish values appearing in request bodies (enough constructors to
express the truthiness and `typeof` distinctions the source makes). -/
inductive JVal where
  | jstr (s : String)
  | jnum (n : Int)
  | jbool (b : Bool)
  | jnull
  deriving DecidableEq

/-- JavaScript truthiness of a value (what `!x` negates in the source). -/
def truthyJ : JVal → Bool
  | JVal.jstr s => s != ""
  | JVal.jnum n => n != 0
  | JVal.jbool b => b
  | JVal.jnull => false

/-- Truthiness of a possibly-absent (`undefined`) value. -/
def truthyOpt : Option JVal → Bool
  | none => false
  | some v => truthyJ v

/-- `typeof x === 'string'` on a possibly-absent value. -/
def isStringOpt : Option JVal → Bool
  | some (JVal.jstr _) => true
  | _ => false

/-- JavaScript `a || b` where `a` is an optional string (the empty string is
falsy, so it also falls back). -/
def jsOr (o : Option String) (fallback : String) : String :=
  match o with
  | some s => if s = "" then fallback else s
  | none => fallback

/-- `response.ok` of the Fetch API: HTTP status in the 2xx range. -/
def isOk (status : Nat) : Bool :=
  decide (200 ≤ status ∧ status < 300)

/-- One entry of the upstream message list: `{role, content}`. -/
structure Msg where
  role : JVal
  content : JVal
  deriving DecidableEq

/-- Body of a Variant A `POST /api/chat` request:
`const { message, conversationHistory } = req.body`.  The history, when
present, is a list of records with `role` and `content` fields. -/
structure ReqA where
  message : Option JVal
  conversationHistory : Option (List Msg)

/-- Oracle for Variant A's single upstream chat-completion call: the HTTP
status of the response, `errorData.error?.message` of an error body, and
`choices[0].message.content`, `model`, `usage` of a success body. -/
structure UpstreamA where
  status : Nat
  errMsg : Option String
  choiceContent : String
  model : String
  usage : JVal
  deriving DecidableEq

/-- HTTP-level outcome of the Variant A handler. -/
inductive ResultA where
  | badRequest
  | upstreamErr (status : Nat) (details : String)
  | ok (response model : String) (usage : JVal)
  deriving DecidableEq

/-- HTTP status code of a Variant A outcome.  `upstreamErr` carries the
status the source passes to `res.status(response.status)`. -/
def ResultA.httpStatus : ResultA → Nat
  | ResultA.badRequest => 400
  | ResultA.upstreamErr s _ => s
  | ResultA.ok _ _ _ => 200

/-- Trace of the upstream traffic a Variant A request caused: how many
completion calls were made and the message lists sent with them. -/
structure TraceA where
  completionCalls : Nat
  sentMessages : List (List Msg)
  deriving DecidableEq

/-- The fixed system-instruction entry of `server.js`. -/
def systemMsg : Msg :=
  ⟨JVal.jstr "system",
   JVal.jstr "Eres un asistente útil y amigable. Respondes de manera clara y concisa."⟩

/-- The message list `server.js` builds: system prompt, then
`...(conversationHistory || []).map(msg => ({role: msg.role, content:
msg.content}))`, then `{role: 'user', content: message}`. -/
def buildMessages (message : String) (conversationHistory : Option (List Msg)) : List Msg :=
  systemMsg ::
    ((conversationHistory.getD []).map (fun m => Msg.mk m.role m.content) ++
      [⟨JVal.jstr "user", JVal.jstr message⟩])

/-- The Variant A `POST /api/chat` handler.  The first match/if mirrors
`if (!message || typeof message !== 'string') return 400`: an absent or
non-string value hits the catch-all pattern, an empty string is falsy. -/
def handleChatA (req : ReqA) (up : UpstreamA) : ResultA × TraceA :=
  match req.message with
  | some (JVal.jstr s) =>
    if s = "" then (ResultA.badRequest, ⟨0, []⟩)
    else
      let msgs := buildMessages s req.conversationHistory
      if isOk up.status then
        (ResultA.ok up.choiceContent up.model up.usage, ⟨1, [msgs]⟩)
      else
        (ResultA.upstreamErr up.status (jsOr up.errMsg "Unknown error"), ⟨1, [msgs]⟩)
  | _ => (ResultA.badRequest, ⟨0, []⟩)

/-- Result of one status fetch
(`GET .../runs/{runId}` inside the poll loop): either the HTTP response is
not ok, or it carries `statusData.status` and `statusData.last_error?.message`. -/
inductive StatusFetch where
  | httpFail
  | okS (status : String) (lastErr : Option String)
  deriving DecidableEq

/-- State of the poll loop's local variables: `runStatus`, `attempts`, plus
counters for the sleeps performed and the status fetches issued (a fetch
whose HTTP response is not ok is counted in `fetches` but aborts before the
`attempts++` line runs). -/
structure LoopSt where
  runStatus : String
  attempts : Nat
  sleeps : Nat
  fetches : Nat
  deriving DecidableEq

/-- The poll loop of Variant B:
`while (runStatus !== 'completed' && runStatus !== 'failed' && attempts <
maxAttempts)`; each iteration sleeps one second, fetches the run status
(the k-th fetch is `fetch k` where `k` is the current value of `attempts`),
assigns `runStatus`, increments `attempts`, and throws if the status is
`failed`, `cancelled` or `expired`.  `Except.error` is a thrown error (the
message and the state at the throw); `Except.ok` is a normal loop exit.
The fuel argument is instantiated with 60 = `maxAttempts`; since `attempts`
grows by one per iteration the fuel never runs out before the loop
condition turns false. -/
def pollAux (fetch : Nat → StatusFetch) : Nat → LoopSt → Except (String × LoopSt) LoopSt
  | 0, s => Except.ok s
  | fuel + 1, s =>
    if s.runStatus ≠ "completed" ∧ s.runStatus ≠ "failed" ∧ s.attempts < 60 then
      match fetch s.attempts with
      | StatusFetch.httpFail =>
        Except.error ("Failed to get run status",
          ⟨s.runStatus, s.attempts, s.sleeps + 1, s.fetches + 1⟩)
      | StatusFetch.okS st le =>
        if st = "failed" ∨ st = "cancelled" ∨ st = "expired" then
          Except.error ("Run " ++ st ++ ": " ++ jsOr le "Unknown error",
            ⟨st, s.attempts + 1, s.sleeps + 1, s.fetches + 1⟩)
        else
          pollAux fetch fuel ⟨st, s.attempts + 1, s.sleeps + 1, s.fetches + 1⟩
    else Except.ok s

/-- Outcome of the whole polling phase (loop plus the
`if (runStatus !== 'completed') throw timeout` check after it), with the
final values of the attempt, sleep and fetch counters. -/
inductive PollOutcome where
  | success (attempts sleeps fetches : Nat)
  | thrown (msg : String) (attempts sleeps fetches : Nat)
  | timeout (attempts sleeps fetches : Nat)
  deriving DecidableEq

/-- Number of status fetches an outcome performed. -/
def PollOutcome.fetches : PollOutcome → Nat
  | PollOutcome.success _ _ f => f
  | PollOutcome.thrown _ _ _ f => f
  | PollOutcome.timeout _ _ f => f

/-- Number of one-second sleeps an outcome performed. -/
def PollOutcome.sleeps : PollOutcome → Nat
  | PollOutcome.success _ s _ => s
  | PollOutcome.thrown _ _ s _ => s
  | PollOutcome.timeout _ s _ => s

/-- The polling phase: run the loop from
`runStatus = 'queued'; attempts = 0` with `maxAttempts = 60` fuel, then
apply the post-loop timeout check. -/
def pollRun (fetch : Nat → StatusFetch) : PollOutcome :=
  match pollAux fetch 60 ⟨"queued", 0, 0, 0⟩ with
  | Except.error (m, s) => PollOutcome.thrown m s.attempts s.sleeps s.fetches
  | Except.ok s =>
    if s.runStatus = "completed" then PollOutcome.success s.attempts s.sleeps s.fetches
    else PollOutcome.timeout s.attempts s.sleeps s.fetches

/-- One segment of an assistant message's `content` array: `type` and
`text.value`. -/
structure ContentPart where
  ctype : String
  textValue : String
  deriving DecidableEq

/-- One entry of the thread-messages listing: `role` and `content`. -/
structure ThreadMsg where
  role : String
  content : List ContentPart
  deriving DecidableEq

/-- Find the suffix after the first `】` of a character list; `none` when the
list has no `】`. -/
def findClose : List Char → Option (List Char)
  | [] => none
  | c :: rest => if c = '】' then some rest else findClose rest

/-- Fuel-driven scan implementing the global replace
`responseText.replace(/【[^】]*】/g, '')`: at a `【` that has a later `】`,
drop everything through that first `】` and continue after it; a `【` with
no later `】` matches nothing and is kept; every other character is kept.
The fuel is instantiated with the list length, which the recursion never
exhausts (each step continues on a strictly shorter list), so the
fuel-exhausted case is unreachable. -/
def stripCitationsAux : Nat → List Char → List Char
  | _, [] => []
  | 0, l => l
  | fuel + 1, c :: rest =>
    if c = '【' then
      match findClose rest with
      | some rest2 => stripCitationsAux fuel rest2
      | none => c :: stripCitationsAux fuel rest
    else c :: stripCitationsAux fuel rest

/-- `responseText.replace(/【[^】]*】/g, '')`. -/
def stripCitations (s : String) : String :=
  String.mk (stripCitationsAux s.data.length s.data)

/-- `true` when a character list still contains a match of `【[^】]*】`,
i.e. some `【` followed (anywhere later) by a `】`. -/
def hasMarker : List Char → Bool
  | [] => false
  | c :: rest => (c == '【' && (findClose rest).isSome) || hasMarker rest

/-- The response-text extraction of Variant B:
`content.filter(c => c.type === 'text').map(c => c.text.value).join('\n')`
followed by the citation strip. -/
def extractResponseText (content : List ContentPart) : String :=
  stripCitations
    (String.intercalate "\n"
      ((content.filter (fun c => c.ctype == "text")).map (fun c => c.textValue)))

/-- Body of a Variant B `POST /api/chat` request:
`const { message, threadId } = req.body`. -/
structure ReqB where
  message : Option JVal
  threadId : Option JVal

/-- Oracle for Variant B's upstream calls, one group of fields per call.
`addMessageErrMsg` and `startRunErrMsg` model the parsed error bodies the
source only logs (the thrown messages are fixed strings). -/
structure UpstreamB where
  createThreadStatus : Nat
  createThreadId : String
  addMessageStatus : Nat
  addMessageErrMsg : Option String
  startRunStatus : Nat
  startRunErrMsg : Option String
  runId : String
  fetchRun : Nat → StatusFetch
  listMessagesStatus : Nat
  threadMessages : List ThreadMsg

/-- HTTP-level outcome of the Variant B handler.  `serverError m` is the
catch-all branch `res.status(500).json({error: 'Internal server error',
message: m})`; `configErr` is the direct
`res.status(500).json({error: 'Assistant ID not configured'})`. -/
inductive ResultB where
  | badRequest
  | configErr
  | serverError (message : String)
  | ok (response : String) (threadId : JVal) (runId : String)
  deriving DecidableEq

/-- HTTP status code of a Variant B outcome. -/
def ResultB.httpStatus : ResultB → Nat
  | ResultB.badRequest => 400
  | ResultB.configErr => 500
  | ResultB.serverError _ => 500
  | ResultB.ok _ _ _ => 200

/-- Trace of the upstream traffic a Variant B request caused. -/
structure TraceB where
  createThreadCalls : Nat
  addMessageCalls : Nat
  startRunCalls : Nat
  pollSleeps : Nat
  pollFetches : Nat
  listMessagesCalls : Nat
  deriving DecidableEq

/-- The all-zero trace: the handler returned before any upstream call. -/
def trace0 : TraceB := ⟨0, 0, 0, 0, 0, 0⟩

/-- Steps 2-6 of the Variant B handler, entered with the resolved
`currentThreadId` and the number of create-thread calls already made:
append the message, start the run, poll, list the thread messages, pick the
first entry with role `assistant`, extract and clean its text.  Each
`serverError` is the catch-all boundary catching the corresponding
`throw new Error(...)`. -/
def afterThread (up : UpstreamB) (currentThreadId : JVal) (cc : Nat) : ResultB × TraceB :=
  if isOk up.addMessageStatus = false then
    (ResultB.serverError "Failed to add message to thread", ⟨cc, 1, 0, 0, 0, 0⟩)
  else if isOk up.startRunStatus = false then
    (ResultB.serverError "Failed to run assistant", ⟨cc, 1, 1, 0, 0, 0⟩)
  else
    match pollRun up.fetchRun with
    | PollOutcome.thrown m _ sl f =>
      (ResultB.serverError m, ⟨cc, 1, 1, sl, f, 0⟩)
    | PollOutcome.timeout _ sl f =>
      (ResultB.serverError "Assistant response timeout", ⟨cc, 1, 1, sl, f, 0⟩)
    | PollOutcome.success _ sl f =>
      if isOk up.listMessagesStatus = false then
        (ResultB.serverError "Failed to get messages", ⟨cc, 1, 1, sl, f, 1⟩)
      else
        match up.threadMessages.find? (fun m => m.role == "assistant") with
        | none => (ResultB.serverError "No assistant response found", ⟨cc, 1, 1, sl, f, 1⟩)
        | some assistantMessage =>
          (ResultB.ok (extractResponseText assistantMessage.content) currentThreadId up.runId,
            ⟨cc, 1, 1, sl, f, 1⟩)

/-- Variant B after validation: the assistant-id configuration check, then
thread resolution (`let currentThreadId = threadId; if (!currentThreadId)
{create}`), then the rest of the pipeline. -/
def handleChatBValid (assistantConfigured : Bool) (tid : Option JVal) (up : UpstreamB) :
    ResultB × TraceB :=
  if assistantConfigured = false then (ResultB.configErr, trace0)
  else if truthyOpt tid then
    afterThread up (tid.getD JVal.jnull) 0
  else if isOk up.createThreadStatus then
    afterThread up (JVal.jstr up.createThreadId) 1
  else (ResultB.serverError "Failed to create thread", ⟨1, 0, 0, 0, 0, 0⟩)

/-- The Variant B `POST /api/chat` handler.  The first match/if mirrors
`if (!message || typeof message !== 'string') return 400` exactly as in
Variant A. -/
def handleChatB (assistantConfigured : Bool) (req : ReqB) (up : UpstreamB) :
    ResultB × TraceB :=
  match req.message with
  | some (JVal.jstr s) =>
    if s = "" then (ResultB.badRequest, trace0)
    else handleChatBValid assistantConfigured req.threadId up
  | _ => (ResultB.badRequest, trace0)

/-- Fetch counter of a loop result (thrown or normal exit). -/
def pollExFetches : Except (String × LoopSt) LoopSt → Nat
  | Except.error (_, t) => t.fetches
  | Except.ok t => t.fetches

/-- Sleep counter of a loop result (thrown or normal exit). -/
def pollExSleeps : Except (String × LoopSt) LoopSt → Nat
  | Except.error (_, t) => t.sleeps
  | Except.ok t => t.sleeps

/-- A status fetch that neither fails at the HTTP level nor returns a
terminal run status: the loop keeps polling after it. -/
def isNonTermOk : StatusFetch → Bool
  | StatusFetch.httpFail => false
  | StatusFetch.okS st _ =>
    !(st == "completed" || st == "failed" || st == "cancelled" || st == "expired")

/-- Roles the spec's Message entity recognizes. -/
def recognizedRole : JVal → Bool
  | JVal.jstr s => s == "system" || s == "user" || s == "assistant"
  | _ => false

theorem findClose_sublist : ∀ (l l2 : List Char), findClose l = some l2 → List.Sublist l2 l := by
  intro l
  induction l with
  | nil => intro l2 h; simp [findClose] at h
  | cons c rest ih =>
    intro l2 h
    by_cases hc : c = '】'
    · simp [findClose, hc] at h
      exact h ▸ (List.Sublist.refl rest).cons c
    · simp [findClose, hc] at h
      exact (ih l2 h).cons c

theorem findClose_length : ∀ (l l2 : List Char), findClose l = some l2 → l2.length < l.length := by
  intro l
  induction l with
  | nil => intro l2 h; simp [findClose] at h
  | cons c rest ih =>
    intro l2 h
    by_cases hc : c = '】'
    · simp [findClose, hc] at h
      simp [← h]
    · simp [findClose, hc] at h
      exact Nat.lt_trans (ih l2 h) (by simp)

theorem findClose_none_not_mem : ∀ (l : List Char), findClose l = none → '】' ∉ l := by
  intro l
  induction l with
  | nil => simp
  | cons c rest ih =>
    intro h
    by_cases hc : c = '】'
    · simp [findClose, hc] at h
    · simp [findClose, hc] at h
      simp [List.mem_cons]
      exact ⟨fun he => hc he.symm, ih h⟩

theorem findClose_none_of_not_mem : ∀ (l : List Char), '】' ∉ l → findClose l = none := by
  intro l
  induction l with
  | nil => simp [findClose]
  | cons c rest ih =>
    intro h
    simp [List.mem_cons] at h
    have hc : ¬(c = '】') := fun he => h.1 he.symm
    simp [findClose, hc]
    exact ih h.2

theorem stripCitationsAux_sublist : ∀ (fuel : Nat) (l : List Char),
    List.Sublist (stripCitationsAux fuel l) l := by
  intro fuel
  induction fuel with
  | zero => intro l; cases l <;> simp [stripCitationsAux]
  | succ fuel ih =>
    intro l
    cases l with
    | nil => simp [stripCitationsAux]
    | cons c rest =>
      by_cases hc : c = '【'
      · subst hc
        cases hfc : findClose rest with
        | some rest2 =>
          simp only [stripCitationsAux, hfc, if_pos rfl]
          exact ((ih rest2).trans (findClose_sublist rest rest2 hfc)).cons _
        | none =>
          simp only [stripCitationsAux, hfc, if_pos rfl]
          exact (ih rest).cons₂ _
      · simp only [stripCitationsAux, if_neg hc]
        exact (ih rest).cons₂ c

theorem hasMarker_stripCitationsAux : ∀ (fuel : Nat) (l : List Char), l.length ≤ fuel →
    hasMarker (stripCitationsAux fuel l) = false := by
  intro fuel
  induction fuel with
  | zero =>
    intro l hl
    have : l = [] := List.eq_nil_of_length_eq_zero (Nat.le_zero.mp hl)
    subst this
    simp [stripCitationsAux, hasMarker]
  | succ fuel ih =>
    intro l hl
    cases l with
    | nil => simp [stripCitationsAux, hasMarker]
    | cons c rest =>
      have hrest : rest.length ≤ fuel := by
        simp [List.length_cons] at hl
        omega
      by_cases hc : c = '【'
      · cases hfc : findClose rest with
        | some rest2 =>
          simp only [stripCitationsAux, hc, if_pos rfl, hfc]
          have hlen : rest2.length < rest.length := findClose_length rest rest2 hfc
          exact ih rest2 (Nat.le_of_lt (Nat.lt_of_lt_of_le hlen hrest))
        | none =>
          simp only [stripCitationsAux, hc, if_pos rfl, hfc]
          have h1 : hasMarker (stripCitationsAux fuel rest) = false := ih rest hrest
          have h2 : findClose (stripCitationsAux fuel rest) = none := by
            refine findClose_none_of_not_mem _ (fun hm => ?_)
            exact findClose_none_not_mem rest hfc ((stripCitationsAux_sublist fuel rest).subset hm)
          simp [hasMarker, h1, h2]
      · simp only [stripCitationsAux, if_neg hc]
        have h1 : hasMarker (stripCitationsAux fuel rest) = false := ih rest hrest
        simp [hasMarker, h1, hc]

theorem pollAux_sleeps_eq (fetch : Nat → StatusFetch) : ∀ (fuel : Nat) (s : LoopSt),
    s.sleeps = s.fetches →
    pollExSleeps (pollAux fetch fuel s) = pollExFetches (pollAux fetch fuel s) := by
  intro fuel
  induction fuel with
  | zero => intro s hs; simp [pollAux, pollExSleeps, pollExFetches, hs]
  | succ fuel ih =>
    intro s hs
    by_cases hcond : s.runStatus ≠ "completed" ∧ s.runStatus ≠ "failed" ∧ s.attempts < 60
    · cases hf : fetch s.attempts with
      | httpFail =>
        simp [pollAux, hcond, hf, pollExSleeps, pollExFetches, hs]
      | okS st le =>
        by_cases hterm : st = "failed" ∨ st = "cancelled" ∨ st = "expired"
        · simp [pollAux, hcond, hf, hterm, pollExSleeps, pollExFetches, hs]
        · simp only [pollAux, if_pos hcond, hf, if_neg hterm]
          exact ih ⟨st, s.attempts + 1, s.sleeps + 1, s.fetches + 1⟩ (by simp [hs])
    · simp [pollAux, hcond, pollExSleeps, pollExFetches, hs]

theorem pollAux_fetches_le (fetch : Nat → StatusFetch) : ∀ (fuel : Nat) (s : LoopSt),
    pollExFetches (pollAux fetch fuel s) ≤ s.fetches + fuel := by
  intro fuel
  induction fuel with
  | zero => intro s; simp [pollAux, pollExFetches]
  | succ fuel ih =>
    intro s
    by_cases hcond : s.runStatus ≠ "completed" ∧ s.runStatus ≠ "failed" ∧ s.attempts < 60
    · cases hf : fetch s.attempts with
      | httpFail =>
        simp [pollAux, hcond, hf, pollExFetches]
      | okS st le =>
        by_cases hterm : st = "failed" ∨ st = "cancelled" ∨ st = "expired"
        · simp [pollAux, hcond, hf, hterm, pollExFetches]
        · simp only [pollAux, if_pos hcond, hf, if_neg hterm]
          have := ih ⟨st, s.attempts + 1, s.sleeps + 1, s.fetches + 1⟩
          simp at this
          omega
    · simp [pollAux, hcond, pollExFetches]


theorem pollAux_timeout (fetch : Nat → StatusFetch) : ∀ (fuel : Nat) (s : LoopSt),
    s.attempts + fuel = 60 → s.sleeps = s.attempts → s.fetches = s.attempts →
    s.runStatus ≠ "completed" → s.runStatus ≠ "failed" →
    (∀ k, s.attempts ≤ k → k < 60 → isNonTermOk (fetch k) = true) →
    ∃ st, pollAux fetch fuel s = Except.ok ⟨st, 60, 60, 60⟩ ∧ st ≠ "completed" := by
  intro fuel
  induction fuel with
  | zero =>
    intro s hfu hsl hfe hc hfail _
    refine ⟨s.runStatus, ?_, hc⟩
    obtain ⟨rs, att, sl, fe⟩ := s
    dsimp only at hfu hsl hfe ⊢
    have h60 : att = 60 := by omega
    subst hsl hfe h60
    simp [pollAux]
  | succ fuel ih =>
    intro s hfu hsl hfe hc hfail hnt
    have hlt : s.attempts < 60 := by omega
    have hcond : s.runStatus ≠ "completed" ∧ s.runStatus ≠ "failed" ∧ s.attempts < 60 :=
      ⟨hc, hfail, hlt⟩
    have hk := hnt s.attempts (Nat.le_refl _) hlt
    cases hf : fetch s.attempts with
    | httpFail => rw [hf] at hk; simp [isNonTermOk] at hk
    | okS st le =>
      rw [hf] at hk
      simp [isNonTermOk] at hk
      obtain ⟨⟨⟨h1, h2⟩, h3⟩, h4⟩ := hk
      have hterm : ¬(st = "failed" ∨ st = "cancelled" ∨ st = "expired") := by
        simp [h2, h3, h4]
      simp only [pollAux, if_pos hcond, hf, if_neg hterm]
      exact ih ⟨st, s.attempts + 1, s.sleeps + 1, s.fetches + 1⟩ (by simp; omega)
        (by simp [hsl]) (by simp [hfe]) (by simp [h1]) (by simp [h2])
        (fun k hk1 hk2 => hnt k (by simp at hk1; omega) hk2)

theorem pollAux_fail (fetch : Nat → StatusFetch) (j : Nat) (st : String) (le : Option String)
    (hj : j < 60) (hfetch : fetch j = StatusFetch.okS st le)
    (hterm : st = "failed" ∨ st = "cancelled" ∨ st = "expired") :
    ∀ (fuel : Nat) (s : LoopSt),
    s.attempts + fuel = 60 → s.attempts ≤ j →
    s.sleeps = s.attempts → s.fetches = s.attempts →
    s.runStatus ≠ "completed" → s.runStatus ≠ "failed" →
    (∀ i, s.attempts ≤ i → i < j → isNonTermOk (fetch i) = true) →
    pollAux fetch fuel s =
      Except.error ("Run " ++ st ++ ": " ++ jsOr le "Unknown error", ⟨st, j + 1, j + 1, j + 1⟩) := by
  intro fuel
  induction fuel with
  | zero => intro s hfu hle _ _ _ _ _; omega
  | succ fuel ih =>
    intro s hfu hle hsl hfe hc hfail hnt
    have hlt : s.attempts < 60 := by omega
    have hcond : s.runStatus ≠ "completed" ∧ s.runStatus ≠ "failed" ∧ s.attempts < 60 :=
      ⟨hc, hfail, hlt⟩
    by_cases hej : s.attempts = j
    · have hfetch2 : fetch s.attempts = StatusFetch.okS st le := by rw [hej]; exact hfetch
      simp only [pollAux, if_pos hcond, hfetch2, if_pos hterm]
      simp [hej, hsl, hfe]
    · have hltj : s.attempts < j := by omega
      have hk := hnt s.attempts (Nat.le_refl _) hltj
      cases hf : fetch s.attempts with
      | httpFail => rw [hf] at hk; simp [isNonTermOk] at hk
      | okS st2 le2 =>
        rw [hf] at hk
        simp [isNonTermOk] at hk
        obtain ⟨⟨⟨h1, h2⟩, h3⟩, h4⟩ := hk
        have hterm2 : ¬(st2 = "failed" ∨ st2 = "cancelled" ∨ st2 = "expired") := by
          simp [h2, h3, h4]
        simp only [pollAux, if_pos hcond, hf, if_neg hterm2]
        exact ih ⟨st2, s.attempts + 1, s.sleeps + 1, s.fetches + 1⟩ (by simp; omega)
          (by simp; omega) (by simp [hsl]) (by simp [hfe]) (by simp [h1]) (by simp [h2])
          (fun i hi1 hi2 => hnt i (by simp at hi1; omega) hi2)

theorem map_role_content_id (h : List Msg) :
    h.map (fun m => Msg.mk m.role m.content) = h := by
  induction h with
  | nil => rfl
  | cons a t iht => cases a; simp [iht]

theorem handleChatB_eq_valid (cfg : Bool) (s : String) (tid : Option JVal) (up : UpstreamB)
    (hs : s ≠ "") :
    handleChatB cfg ⟨some (JVal.jstr s), tid⟩ up = handleChatBValid cfg tid up := by
  simp [handleChatB, hs]

theorem handleChatBValid_noConfig (tid : Option JVal) (up : UpstreamB) :
    handleChatBValid false tid up = (ResultB.configErr, trace0) := by
  simp [handleChatBValid]

theorem handleChatBValid_truthy (tid : Option JVal) (up : UpstreamB)
    (ht : truthyOpt tid = true) :
    handleChatBValid true tid up = afterThread up (tid.getD JVal.jnull) 0 := by
  simp [handleChatBValid, ht]

theorem handleChatBValid_create (tid : Option JVal) (up : UpstreamB)
    (ht : truthyOpt tid = false) (hc : isOk up.createThreadStatus = true) :
    handleChatBValid true tid up = afterThread up (JVal.jstr up.createThreadId) 1 := by
  simp [handleChatBValid, ht, hc]

theorem handleChatBValid_createFail (tid : Option JVal) (up : UpstreamB)
    (ht : truthyOpt tid = false) (hc : isOk up.createThreadStatus = false) :
    handleChatBValid true tid up =
      (ResultB.serverError "Failed to create thread", ⟨1, 0, 0, 0, 0, 0⟩) := by
  simp [handleChatBValid, ht, hc]

theorem afterThread_addFail (up : UpstreamB) (ctid : JVal) (cc : Nat)
    (h : isOk up.addMessageStatus = false) :
    afterThread up ctid cc =
      (ResultB.serverError "Failed to add message to thread", ⟨cc, 1, 0, 0, 0, 0⟩) := by
  simp [afterThread, h]

theorem afterThread_runFail (up : UpstreamB) (ctid : JVal) (cc : Nat)
    (h1 : isOk up.addMessageStatus = true) (h2 : isOk up.startRunStatus = false) :
    afterThread up ctid cc =
      (ResultB.serverError "Failed to run assistant", ⟨cc, 1, 1, 0, 0, 0⟩) := by
  simp [afterThread, h1, h2]

theorem afterThread_thrown (up : UpstreamB) (ctid : JVal) (cc : Nat)
    (m : String) (a sl f : Nat)
    (h1 : isOk up.addMessageStatus = true) (h2 : isOk up.startRunStatus = true)
    (hp : pollRun up.fetchRun = PollOutcome.thrown m a sl f) :
    afterThread up ctid cc = (ResultB.serverError m, ⟨cc, 1, 1, sl, f, 0⟩) := by
  simp [afterThread, h1, h2, hp]

theorem afterThread_timeout (up : UpstreamB) (ctid : JVal) (cc : Nat) (a sl f : Nat)
    (h1 : isOk up.addMessageStatus = true) (h2 : isOk up.startRunStatus = true)
    (hp : pollRun up.fetchRun = PollOutcome.timeout a sl f) :
    afterThread up ctid cc =
      (ResultB.serverError "Assistant response timeout", ⟨cc, 1, 1, sl, f, 0⟩) := by
  simp [afterThread, h1, h2, hp]

theorem afterThread_listFail (up : UpstreamB) (ctid : JVal) (cc : Nat) (a sl f : Nat)
    (h1 : isOk up.addMessageStatus = true) (h2 : isOk up.startRunStatus = true)
    (hp : pollRun up.fetchRun = PollOutcome.success a sl f)
    (h3 : isOk up.listMessagesStatus = false) :
    afterThread up ctid cc =
      (ResultB.serverError "Failed to get messages", ⟨cc, 1, 1, sl, f, 1⟩) := by
  simp [afterThread, h1, h2, hp, h3]

theorem afterThread_createCalls (up : UpstreamB) (ctid : JVal) (cc : Nat) :
    (afterThread up ctid cc).2.createThreadCalls = cc := by
  unfold afterThread
  repeat' split
  all_goals simp

theorem afterThread_ok_threadId (up : UpstreamB) (ctid : JVal) (cc : Nat)
    (r : String) (tid : JVal) (rid : String) (tr : TraceB)
    (h : afterThread up ctid cc = (ResultB.ok r tid rid, tr)) : tid = ctid := by
  unfold afterThread at h
  repeat' split at h
  all_goals simp_all

theorem handleChatB_resolves (s : String) (tid : Option JVal) (up : UpstreamB)
    (hs : s ≠ "") (hth : truthyOpt tid = true ∨ isOk up.createThreadStatus = true) :
    ∃ ctid cc, handleChatB true ⟨some (JVal.jstr s), tid⟩ up = afterThread up ctid cc := by
  rw [handleChatB_eq_valid true s tid up hs]
  by_cases ht : truthyOpt tid = true
  · exact ⟨tid.getD JVal.jnull, 0, handleChatBValid_truthy tid up ht⟩
  · have ht2 : truthyOpt tid = false := by simpa using ht
    have hc : isOk up.createThreadStatus = true := hth.resolve_left ht
    exact ⟨JVal.jstr up.createThreadId, 1, handleChatBValid_create tid up ht2 hc⟩

/-- C2: in Variant B's poll loop every iteration first sleeps one interval
and then fetches the run status, so the number of sleeps always equals the
number of fetches; for the fetched status sequence queued, in_progress,
in_progress, completed the polling succeeds after exactly 4 status fetches
and exactly 4 (hence at least 4) one-second waits. -/
theorem poll_sequence_c2 :
    (∀ fetch : Nat → StatusFetch, (pollRun fetch).sleeps = (pollRun fetch).fetches) ∧
    pollRun (fun k =>
        StatusFetch.okS
          (List.getD ["queued", "in_progress", "in_progress", "completed"] k "completed") none)
      = PollOutcome.success 4 4 4 := by
  constructor
  · intro fetch
    have h := pollAux_sleeps_eq fetch 60 ⟨"queued", 0, 0, 0⟩ rfl
    unfold pollRun
    cases hp : pollAux fetch 60 ⟨"queued", 0, 0, 0⟩ with
    | error e =>
      obtain ⟨m, t⟩ := e
      rw [hp] at h
      simp [pollExSleeps, pollExFetches] at h
      simp [PollOutcome.sleeps, PollOutcome.fetches, h]
    | ok t =>
      rw [hp] at h
      simp [pollExSleeps, pollExFetches] at h
      by_cases hc : t.runStatus = "completed" <;>
        simp [hc, PollOutcome.sleeps, PollOutcome.fetches, h]
  · decide

/-- C3: for every sequence of fetched run statuses the poll loop performs at
most 60 status fetches (the fuel bound also makes it terminate); when no
fetch among the first 60 returns `completed` or a terminal failure status,
the loop exits with a non-`completed` status after exactly 60 fetches and
the operation fails with the timeout error, which the handler maps to the
HTTP 500 response `Assistant response timeout`. -/
theorem poll_bounded_c3 :
    (∀ fetch : Nat → StatusFetch, (pollRun fetch).fetches ≤ 60) ∧
    (∀ fetch : Nat → StatusFetch,
      (∀ k, k < 60 → isNonTermOk (fetch k) = true) →
      pollRun fetch = PollOutcome.timeout 60 60 60) ∧
    (∀ (up : UpstreamB) (ctid : JVal) (cc a sl f : Nat),
      isOk up.addMessageStatus = true → isOk up.startRunStatus = true →
      pollRun up.fetchRun = PollOutcome.timeout a sl f →
      (afterThread up ctid cc).1 = ResultB.serverError "Assistant response timeout" ∧
      ResultB.httpStatus (afterThread up ctid cc).1 = 500) := by
  refine ⟨?_, ?_, ?_⟩
  · intro fetch
    have h := pollAux_fetches_le fetch 60 ⟨"queued", 0, 0, 0⟩
    unfold pollRun
    cases hp : pollAux fetch 60 ⟨"queued", 0, 0, 0⟩ with
    | error e =>
      obtain ⟨m, t⟩ := e
      rw [hp] at h
      simp [pollExFetches] at h
      simpa [PollOutcome.fetches] using h
    | ok t =>
      rw [hp] at h
      simp [pollExFetches] at h
      by_cases hc : t.runStatus = "completed" <;>
        simpa [hc, PollOutcome.fetches] using h
  · intro fetch hnt
    obtain ⟨st, hok, hnc⟩ := pollAux_timeout fetch 60 ⟨"queued", 0, 0, 0⟩ (by simp) rfl rfl
      (by decide) (by decide) (fun k _ hk2 => hnt k hk2)
    unfold pollRun
    rw [hok]
    simp [hnc]
  · intro up ctid cc a sl f h1 h2 hp
    rw [afterThread_timeout up ctid cc a sl f h1 h2 hp]
    exact ⟨rfl, rfl⟩

/-- Witness for C3: a run whose status is always `in_progress` stays within
the 60-fetch bound and times out after exactly 60 fetches; a Variant B
pipeline reaching that poll answers HTTP 500 `Assistant response timeout`. -/
theorem poll_bounded_c3_witness :
    (pollRun (fun _ => StatusFetch.okS "in_progress" none)).fetches ≤ 60 ∧
    pollRun (fun _ => StatusFetch.okS "in_progress" none) = PollOutcome.timeout 60 60 60 ∧
    (afterThread
        ⟨200, "t1", 200, none, 200, none, "run_1",
         fun _ => StatusFetch.okS "in_progress" none, 200, []⟩
        (JVal.jstr "t1") 0).1 = ResultB.serverError "Assistant response timeout" := by
  have h2 := poll_bounded_c3.2.1 (fun _ => StatusFetch.okS "in_progress" none)
    (fun k _ => rfl)
  refine ⟨poll_bounded_c3.1 _, h2, ?_⟩
  exact (poll_bounded_c3.2.2
    ⟨200, "t1", 200, none, 200, none, "run_1",
     fun _ => StatusFetch.okS "in_progress" none, 200, []⟩
    (JVal.jstr "t1") 0 60 60 60 (by decide) (by decide) h2).1

/-- C4: if the fetches with index i < j return a non-terminal status and the
fetch with index j (j < 60, i.e. attempt j+1 counting attempts from 1)
returns status failed, cancelled or expired, the poll loop fails exactly at
attempt j+1 with the thrown message
`Run <status>: <upstream last_error message, or 'Unknown error' when absent>`
and performs no further status fetches (j+1 in total). -/
theorem poll_terminal_fail_c4 (fetch : Nat → StatusFetch) (j : Nat) (st : String)
    (le : Option String)
    (hj : j < 60)
    (hearly : ∀ i, i < j → isNonTermOk (fetch i) = true)
    (hfetch : fetch j = StatusFetch.okS st le)
    (hterm : st = "failed" ∨ st = "cancelled" ∨ st = "expired") :
    pollRun fetch =
      PollOutcome.thrown ("Run " ++ st ++ ": " ++ jsOr le "Unknown error")
        (j + 1) (j + 1) (j + 1) := by
  have h := pollAux_fail fetch j st le hj hfetch hterm 60 ⟨"queued", 0, 0, 0⟩ (by simp)
    (by simp) rfl rfl (by decide) (by decide) (fun i _ hi2 => hearly i hi2)
  unfold pollRun
  rw [h]

/-- Witness for C4: statuses in_progress, in_progress, failed (last error
`boom`) make the poll fail at attempt 3 with the upstream message included,
exactly as the spec's example demands. -/
theorem poll_terminal_fail_c4_witness :
    pollRun (fun i => if i < 2 then StatusFetch.okS "in_progress" none
        else StatusFetch.okS "failed" (some "boom"))
      = PollOutcome.thrown "Run failed: boom" 3 3 3 := by
  have h := poll_terminal_fail_c4
    (fun i => if i < 2 then StatusFetch.okS "in_progress" none
      else StatusFetch.okS "failed" (some "boom"))
    2 "failed" (some "boom") (by decide)
    (fun i hi => by simp [hi]; decide) (by decide) (Or.inl rfl)
  rw [h]
  decide

/-- C5: a chat request whose body lacks a `message` field or whose `message`
is not a string gets HTTP 400 from both variants (`isStringOpt mv = false`
states exactly "absent or not a string"), and no upstream call is made: the
upstream-call trace stays all-zero. -/
theorem validation_c5 (mv : Option JVal) (histA : Option (List Msg)) (tidB : Option JVal)
    (upA : UpstreamA) (upB : UpstreamB) (cfg : Bool)
    (hm : isStringOpt mv = false) :
    handleChatA ⟨mv, histA⟩ upA = (ResultA.badRequest, ⟨0, []⟩) ∧
    handleChatB cfg ⟨mv, tidB⟩ upB = (ResultB.badRequest, trace0) ∧
    ResultA.httpStatus ResultA.badRequest = 400 ∧
    ResultB.httpStatus ResultB.badRequest = 400 := by
  refine ⟨?_, ?_, rfl, rfl⟩
  · cases mv with
    | none => rfl
    | some v =>
      cases v with
      | jstr s => simp [isStringOpt] at hm
      | jnum n => rfl
      | jbool b => rfl
      | jnull => rfl
  · cases mv with
    | none => rfl
    | some v =>
      cases v with
      | jstr s => simp [isStringOpt] at hm
      | jnum n => rfl
      | jbool b => rfl
      | jnull => rfl

/-- Witness for C5: the non-string message `5` is rejected by both variants
with HTTP 400 and an all-zero upstream trace. -/
theorem validation_c5_witness :
    handleChatA ⟨some (JVal.jnum 5), none⟩ ⟨200, none, "hi", "gpt-4", JVal.jnull⟩
      = (ResultA.badRequest, ⟨0, []⟩) ∧
    handleChatB true ⟨some (JVal.jnum 5), none⟩
        ⟨200, "t1", 200, none, 200, none, "run_1",
         fun _ => StatusFetch.okS "completed" none, 200, []⟩
      = (ResultB.badRequest, trace0) := by
  have h := validation_c5 (some (JVal.jnum 5)) none none
    ⟨200, none, "hi", "gpt-4", JVal.jnull⟩
    ⟨200, "t1", 200, none, 200, none, "run_1",
     fun _ => StatusFetch.okS "completed" none, 200, []⟩
    true rfl
  exact ⟨h.1, h.2.1⟩

/-- C6: a Variant B request that supplies a truthy (non-empty string)
threadId causes no create-thread call and, whenever the pipeline succeeds,
answers with that same threadId; a valid, configured request that supplies
no threadId issues exactly one create-thread call and, on success, answers
with the id that call returned. -/
theorem thread_reuse_c6 (mv : Option JVal) (cfg : Bool) (t : String) (up : UpstreamB)
    (ht : t ≠ "") :
    ((handleChatB cfg ⟨mv, some (JVal.jstr t)⟩ up).2.createThreadCalls = 0 ∧
     (∀ r tid rid tr,
        handleChatB cfg ⟨mv, some (JVal.jstr t)⟩ up = (ResultB.ok r tid rid, tr) →
        tid = JVal.jstr t)) ∧
    (∀ s : String, s ≠ "" →
      (handleChatB true ⟨some (JVal.jstr s), none⟩ up).2.createThreadCalls = 1 ∧
      (∀ r tid rid tr,
        handleChatB true ⟨some (JVal.jstr s), none⟩ up = (ResultB.ok r tid rid, tr) →
        tid = JVal.jstr up.createThreadId)) := by
  have htt : truthyOpt (some (JVal.jstr t)) = true := by simp [truthyOpt, truthyJ, ht]
  constructor
  · cases mv with
    | none => exact ⟨rfl, fun r tid rid tr h => by simp [handleChatB] at h⟩
    | some v =>
      cases v with
      | jstr s =>
        by_cases hs : s = ""
        · subst hs
          exact ⟨rfl, fun r tid rid tr h => by simp [handleChatB] at h⟩
        · rw [handleChatB_eq_valid cfg s (some (JVal.jstr t)) up hs]
          cases cfg with
          | false =>
            rw [handleChatBValid_noConfig]
            exact ⟨rfl, fun r tid rid tr h => by simp at h⟩
          | true =>
            rw [handleChatBValid_truthy (some (JVal.jstr t)) up htt]
            refine ⟨afterThread_createCalls up _ 0, fun r tid rid tr h => ?_⟩
            have := afterThread_ok_threadId up _ 0 r tid rid tr h
            simpa using this
      | jnum n => exact ⟨rfl, fun r tid rid tr h => by simp [handleChatB] at h⟩
      | jbool b => exact ⟨rfl, fun r tid rid tr h => by simp [handleChatB] at h⟩
      | jnull => exact ⟨rfl, fun r tid rid tr h => by simp [handleChatB] at h⟩
  · intro s hs
    rw [handleChatB_eq_valid true s none up hs]
    by_cases hc : isOk up.createThreadStatus
    · rw [handleChatBValid_create none up rfl hc]
      exact ⟨afterThread_createCalls up _ 1,
        fun r tid rid tr h => afterThread_ok_threadId up _ 1 r tid rid tr h⟩
    · have hc2 : isOk up.createThreadStatus = false := by simpa using hc
      rw [handleChatBValid_createFail none up rfl hc2]
      exact ⟨rfl, fun r tid rid tr h => by simp at h⟩

/-- Witness for C6: with threadId `thread_123` supplied no create-thread
call happens and the success response echoes `thread_123`; without one,
exactly one create-thread call happens. -/
theorem thread_reuse_c6_witness :
    (handleChatB true
        ⟨some (JVal.jstr "hola"), some (JVal.jstr "thread_123")⟩
        ⟨200, "t_new", 200, none, 200, none, "run_1",
         fun _ => StatusFetch.okS "completed" none, 200,
         [⟨"assistant", [⟨"text", "hi"⟩]⟩]⟩).2.createThreadCalls = 0 ∧
    (handleChatB true ⟨some (JVal.jstr "hola"), none⟩
        ⟨200, "t_new", 200, none, 200, none, "run_1",
         fun _ => StatusFetch.okS "completed" none, 200,
         [⟨"assistant", [⟨"text", "hi"⟩]⟩]⟩).2.createThreadCalls = 1 := by
  have h := thread_reuse_c6 (some (JVal.jstr "hola")) true "thread_123"
    ⟨200, "t_new", 200, none, 200, none, "run_1",
     fun _ => StatusFetch.okS "completed" none, 200,
     [⟨"assistant", [⟨"text", "hi"⟩]⟩]⟩ (by decide)
  exact ⟨h.1.1, (h.2 "hola" (by decide)).1⟩

/-- C10: a supplied but falsy threadId (empty string, null, 0, false) is
treated as absent: a valid, configured request issues exactly one
create-thread call, and a success response carries the freshly created
identifier (so not the supplied empty string whenever the created id is
non-empty). -/
theorem falsy_threadId_c10 (s : String) (v : JVal) (up : UpstreamB)
    (hs : s ≠ "") (hv : truthyJ v = false) :
    (handleChatB true ⟨some (JVal.jstr s), some v⟩ up).2.createThreadCalls = 1 ∧
    (∀ r tid rid tr,
      handleChatB true ⟨some (JVal.jstr s), some v⟩ up = (ResultB.ok r tid rid, tr) →
      tid = JVal.jstr up.createThreadId ∧
      (up.createThreadId ≠ "" → tid ≠ JVal.jstr "")) := by
  have hv2 : truthyOpt (some v) = false := by simpa [truthyOpt] using hv
  rw [handleChatB_eq_valid true s (some v) up hs]
  by_cases hc : isOk up.createThreadStatus
  · rw [handleChatBValid_create (some v) up hv2 hc]
    refine ⟨afterThread_createCalls up _ 1, fun r tid rid tr h => ?_⟩
    have htid := afterThread_ok_threadId up _ 1 r tid rid tr h
    subst htid
    exact ⟨rfl, fun hne heq => hne (by simpa using heq)⟩
  · have hc2 : isOk up.createThreadStatus = false := by simpa using hc
    rw [handleChatBValid_createFail (some v) up hv2 hc2]
    exact ⟨rfl, fun r tid rid tr h => by simp at h⟩

/-- Witness for C10: supplying the empty-string threadId still issues one
create-thread call, and the success response carries the created id
`t_new`. -/
theorem falsy_threadId_c10_witness :
    (handleChatB true ⟨some (JVal.jstr "hola"), some (JVal.jstr "")⟩
        ⟨200, "t_new", 200, none, 200, none, "run_1",
         fun _ => StatusFetch.okS "completed" none, 200,
         [⟨"assistant", [⟨"text", "hi"⟩]⟩]⟩).2.createThreadCalls = 1 := by
  exact (falsy_threadId_c10 "hola" (JVal.jstr "")
    ⟨200, "t_new", 200, none, 200, none, "run_1",
     fun _ => StatusFetch.okS "completed" none, 200,
     [⟨"assistant", [⟨"text", "hi"⟩]⟩]⟩ (by decide) (by decide)).1

/-- C7: Variant B's post-processing equals the newline-join of the
text-typed content segments (in order) followed by the citation strip; the
strip removes every bracketed `【...】` marker (the result contains none);
and on the spec's example `Paris is the capital【4:0†source】.` it yields
`Paris is the capital.`. -/
theorem citation_strip_c7 :
    (∀ parts : List ContentPart,
      extractResponseText parts =
        stripCitations (String.intercalate "\n"
          ((parts.filter (fun c => c.ctype == "text")).map (fun c => c.textValue)))) ∧
    (∀ s : String, hasMarker (stripCitations s).data = false) ∧
    stripCitations "Paris is the capital【4:0†source】." = "Paris is the capital." := by
  refine ⟨fun parts => rfl, fun s => ?_, by decide⟩
  exact hasMarker_stripCitationsAux s.data.length s.data (Nat.le_refl _)

/-- C8: for every valid Variant A request the single message list sent
upstream is exactly the fixed system entry, the history entries in order
with role and content copied verbatim, then `{role: 'user', content:
message}`; its length is the history length plus 2, and an absent history is
treated as the empty history. -/
theorem message_list_c8 (s : String) (h : List Msg) (up : UpstreamA) (hs : s ≠ "") :
    (handleChatA ⟨some (JVal.jstr s), some h⟩ up).2.sentMessages =
      [systemMsg :: (h ++ [⟨JVal.jstr "user", JVal.jstr s⟩])] ∧
    (handleChatA ⟨some (JVal.jstr s), some h⟩ up).2.completionCalls = 1 ∧
    (buildMessages s (some h)).length = h.length + 2 ∧
    buildMessages s none = buildMessages s (some []) := by
  refine ⟨?_, ?_, ?_, rfl⟩
  · by_cases ho : isOk up.status <;>
      simp [handleChatA, hs, ho, buildMessages, map_role_content_id]
  · by_cases ho : isOk up.status <;> simp [handleChatA, hs, ho]
  · simp [buildMessages, map_role_content_id]

/-- Witness for C8: a one-entry history produces the three-entry list
system, history entry, user message, sent on the single completion call. -/
theorem message_list_c8_witness :
    (handleChatA
        ⟨some (JVal.jstr "hola"), some [⟨JVal.jstr "assistant", JVal.jstr "previo"⟩]⟩
        ⟨200, none, "hi", "gpt-4", JVal.jnull⟩).2.sentMessages =
      [[systemMsg, ⟨JVal.jstr "assistant", JVal.jstr "previo"⟩,
        ⟨JVal.jstr "user", JVal.jstr "hola"⟩]] := by
  have h := message_list_c8 "hola" [⟨JVal.jstr "assistant", JVal.jstr "previo"⟩]
    ⟨200, none, "hi", "gpt-4", JVal.jnull⟩ (by decide)
  rw [h.1]
  rfl

/-- C9 counterexample: the claim "every entry of the assembled message list
has a recognized role" is false at the concrete history
`[{role: 'banana', content: 'x'}]`: the history role is copied verbatim
into the forwarded list, unvalidated. -/
theorem roles_c9_counterexample :
    ((buildMessages "hola" (some [⟨JVal.jstr "banana", JVal.jstr "x"⟩])).all
      (fun m => recognizedRole m.role)) = false := by
  decide

/-- C9 amended: the entries the handler itself adds (the system instruction
and the final user entry) have recognized roles, and history roles are
copied verbatim; hence every entry of the assembled list has a recognized
role provided every history entry already does (and unconditionally when the
history is absent). -/
theorem roles_c9_amended (s : String) (h : List Msg)
    (hh : h.all (fun m => recognizedRole m.role) = true) :
    (buildMessages s (some h)).all (fun m => recognizedRole m.role) = true ∧
    (buildMessages s none).all (fun m => recognizedRole m.role) = true := by
  constructor
  · simp [buildMessages, map_role_content_id, systemMsg, recognizedRole]
    simpa using hh
  · simp [buildMessages, systemMsg, recognizedRole]

/-- Witness for C9 amended: a history whose single entry has role
`assistant` yields a forwarded list whose roles are all recognized. -/
theorem roles_c9_amended_witness :
    (buildMessages "hola" (some [⟨JVal.jstr "assistant", JVal.jstr "ok"⟩])).all
      (fun m => recognizedRole m.role) = true := by
  exact (roles_c9_amended "hola" [⟨JVal.jstr "assistant", JVal.jstr "ok"⟩] (by decide)).1

/-- C1 counterexample: with a valid request and the completion call
answering HTTP 429 (upstream message `Rate limit reached`), Variant A
responds with status 429, not 500; and with the add-message call answering
429 with the same upstream message, Variant B responds with the fixed
string `Failed to add message to thread` in its `message` field — not with
the upstream-supplied error message, and in no `details` field. -/
theorem upstream_error_c1_counterexample :
    ResultA.httpStatus ((handleChatA ⟨some (JVal.jstr "hola"), none⟩
        ⟨429, some "Rate limit reached", "", "gpt-4", JVal.jnull⟩).1) = 429 ∧
    (429 : Nat) ≠ 500 ∧
    (handleChatB true ⟨some (JVal.jstr "hola"), some (JVal.jstr "thread_abc")⟩
        ⟨200, "t1", 429, some "Rate limit reached", 200, none, "run_1",
         fun _ => StatusFetch.okS "completed" none, 200, []⟩).1
      = ResultB.serverError "Failed to add message to thread" ∧
    "Failed to add message to thread" ≠ "Rate limit reached" := by
  refine ⟨by decide, by decide, by decide, by decide⟩

/-- C1 amended: when the completion call of Variant A returns a non-success
status, the response carries that upstream status (not necessarily 500) and
a `details` field equal to the upstream error message when present and
non-empty, else `Unknown error`; when a call step of Variant B returns a
non-success status (or polling throws or times out), the response has
status 500 with a `message` field equal to the thrown message — a fixed
per-step string, the poll's thrown message being the only one that embeds
upstream-supplied error text. -/
theorem upstream_error_c1_amended :
    (∀ (s : String) (h : Option (List Msg)) (up : UpstreamA), s ≠ "" →
      isOk up.status = false →
      (handleChatA ⟨some (JVal.jstr s), h⟩ up).1 =
        ResultA.upstreamErr up.status (jsOr up.errMsg "Unknown error") ∧
      ResultA.httpStatus (handleChatA ⟨some (JVal.jstr s), h⟩ up).1 = up.status) ∧
    (∀ (s : String) (tid : Option JVal) (up : UpstreamB), s ≠ "" →
      (truthyOpt tid = false → isOk up.createThreadStatus = false →
        (handleChatB true ⟨some (JVal.jstr s), tid⟩ up).1 =
          ResultB.serverError "Failed to create thread") ∧
      (truthyOpt tid = true ∨ isOk up.createThreadStatus = true →
        (isOk up.addMessageStatus = false →
          (handleChatB true ⟨some (JVal.jstr s), tid⟩ up).1 =
            ResultB.serverError "Failed to add message to thread") ∧
        (isOk up.addMessageStatus = true → isOk up.startRunStatus = false →
          (handleChatB true ⟨some (JVal.jstr s), tid⟩ up).1 =
            ResultB.serverError "Failed to run assistant") ∧
        (∀ m a sl f, isOk up.addMessageStatus = true → isOk up.startRunStatus = true →
          pollRun up.fetchRun = PollOutcome.thrown m a sl f →
          (handleChatB true ⟨some (JVal.jstr s), tid⟩ up).1 = ResultB.serverError m) ∧
        (∀ a sl f, isOk up.addMessageStatus = true → isOk up.startRunStatus = true →
          pollRun up.fetchRun = PollOutcome.timeout a sl f →
          (handleChatB true ⟨some (JVal.jstr s), tid⟩ up).1 =
            ResultB.serverError "Assistant response timeout") ∧
        (∀ a sl f, isOk up.addMessageStatus = true → isOk up.startRunStatus = true →
          pollRun up.fetchRun = PollOutcome.success a sl f →
          isOk up.listMessagesStatus = false →
          (handleChatB true ⟨some (JVal.jstr s), tid⟩ up).1 =
            ResultB.serverError "Failed to get messages"))) ∧
    (∀ m : String, ResultB.httpStatus (ResultB.serverError m) = 500) := by
  refine ⟨?_, ?_, fun m => rfl⟩
  · intro s h up hs hno
    constructor <;> simp [handleChatA, hs, hno, ResultA.httpStatus]
  · intro s tid up hs
    constructor
    · intro ht hc
      rw [handleChatB_eq_valid true s tid up hs, handleChatBValid_createFail tid up ht hc]
    · intro hth
      obtain ⟨ctid, cc, heq⟩ := handleChatB_resolves s tid up hs hth
      refine ⟨?_, ?_, ?_, ?_, ?_⟩
      · intro h1
        rw [heq, afterThread_addFail up ctid cc h1]
      · intro h1 h2
        rw [heq, afterThread_runFail up ctid cc h1 h2]
      · intro m a sl f h1 h2 hp
        rw [heq, afterThread_thrown up ctid cc m a sl f h1 h2 hp]
      · intro a sl f h1 h2 hp
        rw [heq, afterThread_timeout up ctid cc a sl f h1 h2 hp]
      · intro a sl f h1 h2 hp h3
        rw [heq, afterThread_listFail up ctid cc a sl f h1 h2 hp h3]

/-- Witness for C1 amended: a 404 completion answer makes Variant A reply
with status 404 and details `Not found`; a 503 add-message answer makes
Variant B reply 500 `Failed to add message to thread`. -/
theorem upstream_error_c1_amended_witness :
    (handleChatA ⟨some (JVal.jstr "hola"), none⟩
        ⟨404, some "Not found", "", "gpt-4", JVal.jnull⟩).1 =
      ResultA.upstreamErr 404 "Not found" ∧
    (handleChatB true ⟨some (JVal.jstr "hola"), some (JVal.jstr "thread_abc")⟩
        ⟨200, "t1", 503, none, 200, none, "run_1",
         fun _ => StatusFetch.okS "completed" none, 200, []⟩).1 =
      ResultB.serverError "Failed to add message to thread" := by
  constructor
  · exact (upstream_error_c1_amended.1 "hola" none
      ⟨404, some "Not found", "", "gpt-4", JVal.jnull⟩ (by decide) (by decide)).1
  · exact ((upstream_error_c1_amended.2.1 "hola" (some (JVal.jstr "thread_abc"))
      ⟨200, "t1", 503, none, 200, none, "run_1",
       fun _ => StatusFetch.okS "completed" none, 200, []⟩ (by decide)).2
      (Or.inl (by decide))).1 (by decide)
